import Mathlib

/-
Verification of the earthquake/aftershock visualization front end.

Shallow embedding conventions:
* JS numbers that only ever hold catalog data (magnitudes, coordinates,
  depths) are modelled as rationals; timestamps (epoch milliseconds, the
  value of `new Date(x).getTime()`) as integers.
* Trigonometric computations (`Math.sin`, `Math.atan2`, ...) are modelled
  exactly over the reals, so the corresponding definitions are
  noncomputable.
* `Array.prototype.sort` with a numeric comparator is modelled by the
  stable `List.mergeSort` with the Boolean relation induced by the
  comparator (modern engines implement a stable merge sort, as the
  ECMAScript specification requires stability).
* React `useState` cells touched by a fetch handler are collected into a
  state record, and the handler becomes a function from the previous state
  and the fetch outcome (`Except`) to the next state.
-/

namespace Aftershock

/-- Earthquake record as served by the catalog endpoint:
`{ id, magnitude, latitude, longitude, depth, place, time }`. -/
structure Earthquake where
  id : String
  magnitude : ℚ
  latitude : ℚ
  longitude : ℚ
  depth : ℚ
  place : String
  time : ℤ
  deriving DecidableEq

open Classical in
/-- JS `Math.atan2 y x`, case split over the quadrants, valued in
`(-pi, pi]`. -/
noncomputable def atan2 (y x : ℝ) : ℝ :=
  if 0 < x then Real.arctan (y / x)
  else if x < 0 ∧ 0 ≤ y then Real.arctan (y / x) + Real.pi
  else if x < 0 ∧ y < 0 then Real.arctan (y / x) - Real.pi
  else if x = 0 ∧ 0 < y then Real.pi / 2
  else if x = 0 ∧ y < 0 then -(Real.pi / 2)
  else 0

/-- `calculateDistance(lat1, lon1, lat2, lon2)`: haversine distance in km
with Earth radius 6371 km. -/
noncomputable def calculateDistance (lat1 lon1 lat2 lon2 : ℚ) : ℝ :=
  let earthRadius : ℝ := 6371
  let dLat : ℝ := ((lat2 : ℝ) - (lat1 : ℝ)) * Real.pi / 180
  let dLon : ℝ := ((lon2 : ℝ) - (lon1 : ℝ)) * Real.pi / 180
  let a : ℝ :=
    Real.sin (dLat / 2) * Real.sin (dLat / 2) +
      Real.cos ((lat1 : ℝ) * Real.pi / 180) * Real.cos ((lat2 : ℝ) * Real.pi / 180) *
        Real.sin (dLon / 2) * Real.sin (dLon / 2)
  let c : ℝ := 2 * atan2 (Real.sqrt a) (Real.sqrt (1 - a))
  earthRadius * c

open Classical in
/-- JS `Math.trunc` (rounding toward zero), used by the `%` operator on
numbers. -/
noncomputable def jsTrunc (x : ℝ) : ℤ :=
  if 0 ≤ x then ⌊x⌋ else ⌈x⌉

/-- JS `a % b` on numbers: the remainder with the sign of the dividend,
`a - b * trunc (a / b)`. -/
noncomputable def jsMod (a b : ℝ) : ℝ :=
  a - b * (jsTrunc (a / b) : ℝ)

/-- JS `Math.round`: nearest integer, ties toward positive infinity. -/
noncomputable def jsRound (x : ℝ) : ℤ :=
  ⌊x + 1 / 2⌋

/-- The compass rose used by `getDirection`. -/
def directions : List String :=
  ["N", "NE", "E", "SE", "S", "SW", "W", "NW"]

/-- `getDirection(lat1, lon1, lat2, lon2)`: bearing from the query point to
the event, bucketed into the eight compass directions.  A JS out-of-bounds
array read yields `undefined`, modelled by the `getD` default. -/
noncomputable def getDirection (lat1 lon1 lat2 lon2 : ℚ) : String :=
  let dLon : ℝ := (lon2 : ℝ) - (lon1 : ℝ)
  let y : ℝ := Real.sin dLon * Real.cos (lat2 : ℝ)
  let x : ℝ :=
    Real.cos (lat1 : ℝ) * Real.sin (lat2 : ℝ) -
      Real.sin (lat1 : ℝ) * Real.cos (lat2 : ℝ) * Real.cos dLon
  let bearing : ℝ := atan2 y x * 180 / Real.pi
  let index : ℤ := (jsRound (jsMod (bearing + 360) 360 / 45)).tmod 8
  directions.getD index.toNat ("undefined")

/-- Result element of `filterEarthquakesByRadius`: the spread
`{ ...eq, distance, direction }`. -/
structure LocatedEq where
  event : Earthquake
  distance : ℝ
  direction : String

open Classical in
/-- `filterEarthquakesByRadius(earthquakes, lat, lon, radiusKm)`: annotate
every event with distance and direction, keep those with
`distance <= radiusKm`, and sort most recent first
(comparator `(a, b) => new Date(b.time) - new Date(a.time)`). -/
noncomputable def filterEarthquakesByRadius
    (earthquakes : List Earthquake) (lat lon radiusKm : ℚ) : List LocatedEq :=
  (((earthquakes.map fun e =>
      { event := e
        distance := calculateDistance lat lon e.latitude e.longitude
        direction := getDirection lat lon e.latitude e.longitude : LocatedEq }).filter
    fun x => decide (x.distance ≤ (radiusKm : ℝ))).mergeSort
    fun a b => decide (b.event.time ≤ a.event.time))

/-- Milliseconds in a day, the literal `1000 * 60 * 60 * 24`. -/
def msPerDay : ℤ := 1000 * 60 * 60 * 24

/-- The `last7Days` filter of `RealTimeActivityCard`: keep events with
`(now - new Date(eq.time)) / (1000*60*60*24) <= 7`. -/
def last7Days (earthquakes : List Earthquake) (now : ℤ) : List Earthquake :=
  earthquakes.filter fun e => decide ((((now - e.time : ℤ) : ℚ) / (msPerDay : ℚ)) ≤ 7)

/-- `Math.floor((now - eqTime) / (1000*60*60*24))`: the whole number of
days elapsed since the event. -/
def daysAgoFloor (now t : ℤ) : ℤ :=
  ⌊(((now - t : ℤ) : ℚ) / (msPerDay : ℚ))⌋

/-- Loop body of `generateHeatmapData`: bucket an event into
`heatmap[6 - daysAgo]` when `0 <= daysAgo < 7` (the JS `heatmap[i]++`). -/
def heatmapStep (now : ℤ) (heatmap : List ℕ) (e : Earthquake) : List ℕ :=
  let daysAgo := daysAgoFloor now e.time
  if 0 ≤ daysAgo ∧ daysAgo < 7 then
    heatmap.set (6 - daysAgo).toNat (heatmap.getD (6 - daysAgo).toNat 0 + 1)
  else heatmap

/-- `generateHeatmapData(earthquakes)`: seven day-buckets filled from the
event list; the reference time `now` (`new Date()` in the source) is an
explicit parameter.  `generateBeforeHeatmap` in `EarthquakeMap.js` is the
same computation with the mainshock time as the reference time. -/
def generateHeatmapData (earthquakes : List Earthquake) (now : ℤ) : List ℕ :=
  earthquakes.foldl (heatmapStep now) (List.replicate 7 0)

/-- Return record of the activity-level classifiers. -/
structure ActivityLevel where
  level : String
  color : String
  icon : String
  bgColor : String
  deriving DecidableEq

/-- `getActivityLevel(count7d, avgMag7d)` from `RealTimeActivityCard`. -/
def getActivityLevel (count7d : ℕ) (avgMag7d : ℚ) : ActivityLevel :=
  if count7d > 50 ∨ avgMag7d > 5.5 then
    { level := "HIGH", color := "#dc2626", icon := "🔴", bgColor := "#fee2e2" }
  else if count7d > 25 ∨ avgMag7d > 5.0 then
    { level := "ELEVATED", color := "#f59e0b", icon := "🟠", bgColor := "#fef3c7" }
  else if count7d > 10 ∨ avgMag7d > 4.5 then
    { level := "MODERATE", color := "#fbbf24", icon := "🟡", bgColor := "#fef9c3" }
  else
    { level := "LOW", color := "#10b981", icon := "🟢", bgColor := "#d1fae5" }

/-- `getBeforeActivityLevel(count, avgMag)` from `EarthquakeMap.js`. -/
def getBeforeActivityLevel (count : ℕ) (avgMag : ℚ) : ActivityLevel :=
  if count > 25 ∨ avgMag > 4.5 then
    { level := "HIGH", color := "#dc2626", icon := "🔴", bgColor := "#fee2e2" }
  else if count > 15 ∨ avgMag > 4.0 then
    { level := "ELEVATED", color := "#f59e0b", icon := "🟠", bgColor := "#fef3c7" }
  else if count > 5 then
    { level := "MODERATE", color := "#fbbf24", icon := "🟡", bgColor := "#fef9c3" }
  else
    { level := "LOW", color := "#10b981", icon := "🟢", bgColor := "#d1fae5" }

/-- Reducer body of `separateBeforeAfter`: skip the mainshock id, push
earlier events on `before`, the rest on `after`. -/
def sbaStep (mainshockTime : ℤ) (mainshockId : String)
    (acc : List Earthquake × List Earthquake) (e : Earthquake) :
    List Earthquake × List Earthquake :=
  if e.id = mainshockId then acc
  else if e.time < mainshockTime then (acc.1 ++ [e], acc.2)
  else (acc.1, acc.2 ++ [e])

/-- `separateBeforeAfter(earthquakes, mainshockTime, mainshockId)`:
`reduce` over the list starting from `{ before: [], after: [] }`. -/
def separateBeforeAfter (earthquakes : List Earthquake)
    (mainshockTime : ℤ) (mainshockId : String) :
    List Earthquake × List Earthquake :=
  earthquakes.foldl (sbaStep mainshockTime mainshockId) ([], [])

/-- `identifyForeshocks(beforeEarthquakes, mainshockTime)`: events of the
last seven days before the mainshock with magnitude at least 3.5, sorted
by descending magnitude, first five kept. -/
def identifyForeshocks (beforeEarthquakes : List Earthquake)
    (mainshockTime : ℤ) : List Earthquake :=
  let sevenDaysBefore : ℤ := mainshockTime - 7 * 24 * 60 * 60 * 1000
  (((beforeEarthquakes.filter fun e =>
      decide (sevenDaysBefore ≤ e.time) && decide ((3.5 : ℚ) ≤ e.magnitude)).mergeSort
    fun a b => decide (b.magnitude ≤ a.magnitude)).take 5)

/-- Payload of the recent-earthquakes endpoint: `data.earthquakes` may be
absent (the source guards with `data.earthquakes || []`). -/
structure FetchData where
  earthquakes : Option (List Earthquake)

/-- The `useState` cells of the `Home` page touched by `loadEarthquakes`. -/
structure HomeState where
  earthquakes : List Earthquake
  loading : Bool
  error : Option String
  mapCenter : ℚ × ℚ
  mapZoom : ℕ
  userLocation : Option (ℚ × ℚ)
  searchedLocation : Option (ℚ × ℚ)

/-- `loadEarthquakes` of the `Home` page as a state transition on the
outcome of `fetchRecentEarthquakes`: set loading, clear the error, then
either store the list (recentring the map when there was no prior user
interaction) or record the error string; `finally` clears loading. -/
def loadEarthquakes (s : HomeState) (res : Except String FetchData) : HomeState :=
  let s1 := { s with loading := true, error := none }
  match res with
  | Except.ok data =>
    let s2 := { s1 with earthquakes := data.earthquakes.getD [] }
    let s3 :=
      match data.earthquakes.getD [], s2.userLocation, s2.searchedLocation with
      | latest :: _, none, none =>
        { s2 with mapCenter := (latest.latitude, latest.longitude), mapZoom := 5 }
      | _, _, _ => s2
    { s3 with loading := false }
  | Except.error _ =>
    { s1 with error := some ("Failed to load earthquakes. Please try again."),
              loading := false }

/-- The `useState` cells of `DetailPanel` touched by `fetchPredictions`;
the prediction payload is opaque to the handler, hence a type parameter. -/
structure DetailState (α : Type) where
  predictions : Option α
  loading : Bool
  error : Option String

/-- `fetchPredictions` of `DetailPanel` as a state transition on the
outcome of `predictAftershocks`. -/
def fetchPredictions {α : Type} (s : DetailState α) (res : Except String α) :
    DetailState α :=
  let s1 := { s with loading := true, error := none }
  match res with
  | Except.ok p => { s1 with predictions := some p, loading := false }
  | Except.error _ =>
    { s1 with error := some ("Failed to load predictions"), loading := false }

/-- JS `String.prototype.trim()`: strip leading and trailing whitespace. -/
def jsTrim (s : String) : String :=
  String.mk ((s.data.dropWhile Char.isWhitespace).reverse.dropWhile Char.isWhitespace).reverse

/-- A change of the search input: the instant it happens and the new value
of `searchQuery`. -/
structure Edit where
  time : ℤ
  query : String
  deriving DecidableEq

/-- The debounce effect of `SearchBar`, run over a time-ordered list of
input changes.  The state is the pending `setTimeout`: its fire instant
(edit time + 300 ms) and the query it would send.  Every edit first clears
the pending timer (the effect cleanup plus the leading `clearTimeout`) —
a timer due at or after the edit instant is cancelled — and schedules a
new one only when the trimmed query has at least three characters.  A
pending timer whose instant precedes the next edit fires, which issues
the geocoding fetch `fetchSuggestions(searchQuery)`. -/
def debounceRun : Option (ℤ × String) → List Edit → List (ℤ × String)
  | some fq, [] => [fq]
  | none, [] => []
  | pending, e :: rest =>
    let fired : List (ℤ × String) :=
      match pending with
      | some fq => if fq.1 < e.time then [fq] else []
      | none => []
    let next : Option (ℤ × String) :=
      if 3 ≤ (jsTrim e.query).length then some (e.time + 300, e.query) else none
    fired ++ debounceRun next rest

/-- The autocomplete fetches issued for a whole edit sequence, starting
with no timer pending. -/
def issuedFetches (edits : List Edit) : List (ℤ × String) :=
  debounceRun none edits

/-- Result record of `calculateHazardZones(magnitude)`. -/
structure HazardZones where
  critical : ℝ
  high : ℝ
  moderate : ℝ

/-- `calculateHazardZones(magnitude)`: base radius `10^(magnitude-2) * 1000`
metres, zones at 0.3, 0.6 and 1.0 of it. -/
noncomputable def calculateHazardZones (magnitude : ℚ) : HazardZones :=
  let baseRadius : ℝ := (10 : ℝ) ^ ((magnitude : ℝ) - 2) * 1000
  { critical := baseRadius * 0.3
    high := baseRadius * 0.6
    moderate := baseRadius * 1.0 }

/-- A concrete event dated exactly seven days before the reference time
`604800000` (7 * 86 400 000 ms after the epoch). -/
def sampleBoundaryEvent : Earthquake :=
  { id := "boundary", magnitude := 4, latitude := 0, longitude := 0,
    depth := 10, place := "X", time := 0 }

/-- A concrete event one millisecond before a mainshock at time 0. -/
def sampleForeshock : Earthquake :=
  { id := "b", magnitude := 4, latitude := 0, longitude := 0,
    depth := 10, place := "Y", time := -1 }

/-- Auxiliary: the `reduce` of `separateBeforeAfter` splits any initial
accumulator into the two filters. -/
theorem sba_foldl_eq (T : ℤ) (mid : String) :
    ∀ (eqs : List Earthquake) (acc : List Earthquake × List Earthquake),
      eqs.foldl (sbaStep T mid) acc =
        (acc.1 ++ eqs.filter fun e => decide (¬e.id = mid ∧ e.time < T),
         acc.2 ++ eqs.filter fun e => decide (¬e.id = mid ∧ T ≤ e.time))
  | [], acc => by simp
  | e :: rest, acc => by
    rw [List.foldl_cons, sba_foldl_eq T mid rest]
    unfold sbaStep
    by_cases h1 : e.id = mid
    · simp [h1, List.filter_cons]
    · by_cases h2 : e.time < T
      · simp [h1, h2, not_le.mpr h2, List.filter_cons]
      · simp [h1, h2, not_lt.mp h2, List.filter_cons]

/-- C4: `separateBeforeAfter` puts an event in `before` iff its timestamp
is strictly below the mainshock time, in `after` iff it is at or above it,
and drops every event carrying the mainshock id; each remaining event
lands in exactly one of the two groups. -/
theorem C4_separate_before_after (eqs : List Earthquake) (T : ℤ) (mid : String)
    (e : Earthquake) :
    ((separateBeforeAfter eqs T mid).1 =
        eqs.filter fun x => decide (¬x.id = mid ∧ x.time < T)) ∧
    ((separateBeforeAfter eqs T mid).2 =
        eqs.filter fun x => decide (¬x.id = mid ∧ T ≤ x.time)) ∧
    (e ∈ (separateBeforeAfter eqs T mid).1 ↔ e ∈ eqs ∧ ¬e.id = mid ∧ e.time < T) ∧
    (e ∈ (separateBeforeAfter eqs T mid).2 ↔ e ∈ eqs ∧ ¬e.id = mid ∧ T ≤ e.time) := by
  have h := sba_foldl_eq T mid eqs ([], [])
  unfold separateBeforeAfter
  rw [h]
  simp [List.mem_filter, and_assoc]

/-- C3 (amended): both activity classifiers are step functions of the pair
(count, average magnitude) over fixed thresholds; the 25-event/4.5-magnitude
cut for HIGH belongs to `getBeforeActivityLevel`, while `getActivityLevel`
cuts HIGH at 50 events or average magnitude 5.5. -/
theorem C3_activity_level_step (c : ℕ) (m : ℚ) :
    ((getBeforeActivityLevel c m).level =
      if c > 25 ∨ m > 4.5 then ("HIGH")
      else if c > 15 ∨ m > 4.0 then ("ELEVATED")
      else if c > 5 then ("MODERATE")
      else ("LOW")) ∧
    ((getActivityLevel c m).level =
      if c > 50 ∨ m > 5.5 then ("HIGH")
      else if c > 25 ∨ m > 5.0 then ("ELEVATED")
      else if c > 10 ∨ m > 4.5 then ("MODERATE")
      else ("LOW")) := by
  constructor
  · unfold getBeforeActivityLevel
    split_ifs <;> rfl
  · unfold getActivityLevel
    split_ifs <;> rfl

/-- C3 counterexample: the pair (count 30, average magnitude 4.6) satisfies
count > 25 ∨ avgMag > 4.5 yet `getActivityLevel` classifies it ELEVATED,
not HIGH. -/
theorem C3_counterexample :
    ((30 : ℕ) > 25 ∨ (46 / 10 : ℚ) > 4.5) ∧
    (getActivityLevel 30 (46 / 10)).level ≠ ("HIGH") := by
  constructor
  · left
    norm_num
  · unfold getActivityLevel
    split_ifs with h1 h2 h3
    · exfalso
      rcases h1 with h1 | h1
      · norm_num at h1
      · norm_num at h1
    · decide
    · decide
    · decide

/-- C6: a failing fetch of recent earthquakes or of aftershock predictions
sets the user-visible error string and clears the loading flag, and leaves
the previously held data (the earthquake list, the predictions) unchanged. -/
theorem C6_fetch_failure_handling {α : Type} (s : HomeState) (msg : String)
    (t : DetailState α) (msg2 : String) :
    (loadEarthquakes s (Except.error msg)).error =
        some ("Failed to load earthquakes. Please try again.") ∧
    (loadEarthquakes s (Except.error msg)).loading = false ∧
    (loadEarthquakes s (Except.error msg)).earthquakes = s.earthquakes ∧
    (fetchPredictions t (Except.error msg2)).error =
        some ("Failed to load predictions") ∧
    (fetchPredictions t (Except.error msg2)).loading = false ∧
    (fetchPredictions t (Except.error msg2)).predictions = t.predictions :=
  ⟨rfl, rfl, rfl, rfl, rfl, rfl⟩

/-- C9: for every magnitude the three hazard-zone radii are strictly
positive and strictly nested, `critical < high < moderate`, each a fixed
multiple (0.3, 0.6, 1.0) of the base radius `10^(m-2) * 1000`. -/
theorem C9_hazard_zones_nested (m : ℚ) :
    0 < (calculateHazardZones m).critical ∧
    (calculateHazardZones m).critical < (calculateHazardZones m).high ∧
    (calculateHazardZones m).high < (calculateHazardZones m).moderate ∧
    (calculateHazardZones m).moderate = (10 : ℝ) ^ ((m : ℝ) - 2) * 1000 := by
  have hb : (0 : ℝ) < (10 : ℝ) ^ ((m : ℝ) - 2) * 1000 := by positivity
  simp only [calculateHazardZones]
  refine ⟨by linarith, by linarith, by linarith, by ring⟩

/-- Auxiliary: incrementing one in-range cell of a bucket array raises its
sum by one. -/
theorem sum_set_incr : ∀ (l : List ℕ) (i : ℕ), i < l.length →
    (l.set i (l.getD i 0 + 1)).sum = l.sum + 1
  | [], i, h => by simp at h
  | a :: t, 0, _ => by simp [List.getD_cons_zero]; omega
  | a :: t, i + 1, h => by
    simp only [List.set_cons_succ, List.getD_cons_succ, List.sum_cons]
    rw [sum_set_incr t i (by simpa using h)]
    omega

/-- Auxiliary: `heatmapStep` keeps the bucket array's length. -/
theorem heatmapStep_length (now : ℤ) (l : List ℕ) (e : Earthquake) :
    (heatmapStep now l e).length = l.length := by
  simp only [heatmapStep]
  split
  · simp
  · rfl

/-- Auxiliary: the heatmap fold keeps the bucket array's length. -/
theorem heatmap_foldl_length (now : ℤ) :
    ∀ (eqs : List Earthquake) (l : List ℕ),
      (eqs.foldl (heatmapStep now) l).length = l.length
  | [], _ => rfl
  | e :: rest, l => by
    rw [List.foldl_cons, heatmap_foldl_length now rest, heatmapStep_length]

/-- Auxiliary: over a seven-cell bucket array the heatmap fold adds one to
the sum per event whose floored age lies in `[0, 7)`. -/
theorem heatmap_foldl_sum (now : ℤ) :
    ∀ (eqs : List Earthquake) (l : List ℕ), l.length = 7 →
      (eqs.foldl (heatmapStep now) l).sum =
        l.sum + eqs.countP fun e =>
          decide (0 ≤ daysAgoFloor now e.time ∧ daysAgoFloor now e.time < 7)
  | [], l, _ => by simp
  | e :: rest, l, hl => by
    rw [List.foldl_cons,
      heatmap_foldl_sum now rest _ (by rw [heatmapStep_length]; exact hl),
      List.countP_cons]
    simp only [heatmapStep]
    by_cases h : 0 ≤ daysAgoFloor now e.time ∧ daysAgoFloor now e.time < 7
    · have hd : decide (0 ≤ daysAgoFloor now e.time ∧ daysAgoFloor now e.time < 7) = true := by
        simpa using h
      rw [if_pos h, sum_set_incr _ _ (by rw [hl]; omega), hd]
      simp only [eq_self_iff_true, if_true]
      omega
    · have hd : decide (0 ≤ daysAgoFloor now e.time ∧ daysAgoFloor now e.time < 7) = false := by
        simpa using h
      rw [if_neg h, hd]
      simp

/-- C2 (amended): the heatmap has seven buckets and the sum of the bucket
counts equals the number of filtered events whose floored age in days lies
in `[0, 7)`; an event passing the `<= 7` filter at exactly seven days (or
one dated in the future) is filtered in but not bucketed. -/
theorem C2_heatmap_bucket_sum (eqs : List Earthquake) (now : ℤ) :
    (generateHeatmapData (last7Days eqs now) now).length = 7 ∧
    (generateHeatmapData (last7Days eqs now) now).sum =
      ((last7Days eqs now).filter fun e =>
        decide (0 ≤ daysAgoFloor now e.time ∧ daysAgoFloor now e.time < 7)).length := by
  unfold generateHeatmapData
  constructor
  · rw [heatmap_foldl_length]
    simp
  · rw [heatmap_foldl_sum now _ _ (by simp), List.countP_eq_length_filter]
    simp

/-- C2 counterexample: an event aged exactly seven days passes the
`last7Days` filter, so the filtered list has length one, yet no bucket
counts it and the bucket sum stays zero. -/
theorem C2_counterexample :
    (last7Days [sampleBoundaryEvent] 604800000).length = 1 ∧
    (generateHeatmapData (last7Days [sampleBoundaryEvent] 604800000) 604800000).sum ≠
      (last7Days [sampleBoundaryEvent] 604800000).length := by
  have hfilter : last7Days [sampleBoundaryEvent] 604800000 = [sampleBoundaryEvent] := by
    simp [last7Days, sampleBoundaryEvent, msPerDay]
    norm_num
  have hday : daysAgoFloor 604800000 sampleBoundaryEvent.time = 7 := by
    simp [daysAgoFloor, sampleBoundaryEvent, msPerDay]
    norm_num
  have hheat :
      generateHeatmapData [sampleBoundaryEvent] 604800000 = List.replicate 7 0 := by
    unfold generateHeatmapData
    rw [List.foldl_cons, List.foldl_nil]
    unfold heatmapStep
    rw [hday, if_neg (by omega)]
  rw [hfilter, hheat]
  simp

/-- Auxiliary: sorting with the comparator `(a, b) => key b - key a`
(modelled as the Boolean relation `key b <= key a`) yields a list that is
pairwise non-increasing in the key. -/
theorem mergeSort_sorted_desc {α β : Type} [LinearOrder β] (key : α → β) (l : List α) :
    List.Pairwise (fun a b => key b ≤ key a)
      (l.mergeSort fun a b => decide (key b ≤ key a)) := by
  have h := @List.sorted_mergeSort α (fun a b : α => decide (key b ≤ key a))
    (fun a b c hab hbc => by
      simp only [decide_eq_true_eq] at *
      exact le_trans hbc hab)
    (fun a b => by
      simp only [Bool.or_eq_true, decide_eq_true_eq]
      exact le_total (key b) (key a))
    l
  exact h.imp (by simp)

/-- C5: over a list of events that all precede the mainshock,
`identifyForeshocks` returns exactly the events of the window
`[T - 7 days, T)` with magnitude at least 3.5, sorted by non-increasing
magnitude and cut to at most five. -/
theorem C5_identify_foreshocks (before : List Earthquake) (T : ℤ)
    (h : ∀ e ∈ before, e.time < T) :
    (identifyForeshocks before T =
      (((before.filter fun e =>
          decide ((T - 7 * 24 * 60 * 60 * 1000 ≤ e.time ∧ e.time < T) ∧
            (3.5 : ℚ) ≤ e.magnitude)).mergeSort
        fun a b => decide (b.magnitude ≤ a.magnitude)).take 5)) ∧
    List.Pairwise (fun a b => b.magnitude ≤ a.magnitude) (identifyForeshocks before T) ∧
    (identifyForeshocks before T).length ≤ 5 := by
  have hfil : (before.filter fun e =>
      decide (T - 7 * 24 * 60 * 60 * 1000 ≤ e.time) && decide ((3.5 : ℚ) ≤ e.magnitude)) =
      before.filter fun e =>
        decide ((T - 7 * 24 * 60 * 60 * 1000 ≤ e.time ∧ e.time < T) ∧
          (3.5 : ℚ) ≤ e.magnitude) := by
    apply List.filter_congr
    intro e he
    have ht := h e he
    rw [Bool.eq_iff_iff]
    simp only [Bool.and_eq_true, decide_eq_true_eq]
    constructor
    · rintro ⟨h1, h2⟩
      exact ⟨⟨h1, ht⟩, h2⟩
    · rintro ⟨⟨h1, _⟩, h2⟩
      exact ⟨h1, h2⟩
  refine ⟨?_, ?_, ?_⟩
  · simp only [identifyForeshocks]
    rw [hfil]
  · simp only [identifyForeshocks]
    exact List.Pairwise.sublist (List.take_sublist 5 _)
      (mergeSort_sorted_desc (fun e : Earthquake => e.magnitude) _)
  · simp only [identifyForeshocks]
    rw [List.length_take]
    exact min_le_left _ _

/-- C5 witness: the single-event list `[sampleForeshock]` precedes the
mainshock time 0 and the theorem's conclusion holds there. -/
theorem C5_witness :
    (∀ e ∈ [sampleForeshock], e.time < (0 : ℤ)) ∧
    ((identifyForeshocks [sampleForeshock] 0 =
      ((([sampleForeshock].filter fun e =>
          decide (((0 : ℤ) - 7 * 24 * 60 * 60 * 1000 ≤ e.time ∧ e.time < 0) ∧
            (3.5 : ℚ) ≤ e.magnitude)).mergeSort
        fun a b => decide (b.magnitude ≤ a.magnitude)).take 5)) ∧
    List.Pairwise (fun a b => b.magnitude ≤ a.magnitude)
      (identifyForeshocks [sampleForeshock] 0) ∧
    (identifyForeshocks [sampleForeshock] 0).length ≤ 5) :=
  ⟨fun e he => by
    rw [List.mem_singleton] at he
    subst he
    norm_num [sampleForeshock],
  C5_identify_foreshocks [sampleForeshock] 0 (fun e he => by
    rw [List.mem_singleton] at he
    subst he
    norm_num [sampleForeshock])⟩

/-- C1: every record returned by `filterEarthquakesByRadius` lies within
the requested radius, its `distance` field being exactly the haversine
distance (Earth radius 6371 km) from the query point; no farther event
appears. -/
theorem C1_filter_radius_sound (eqs : List Earthquake) (lat lon r : ℚ) :
    (filterEarthquakesByRadius eqs lat lon r).Forall fun x =>
      x.distance ≤ (r : ℝ) ∧
      x.distance = calculateDistance lat lon x.event.latitude x.event.longitude := by
  rw [List.forall_iff_forall_mem]
  intro x hx
  unfold filterEarthquakesByRadius at hx
  rw [List.mem_mergeSort, List.mem_filter] at hx
  obtain ⟨hmap, hdist⟩ := hx
  rw [decide_eq_true_eq] at hdist
  rw [List.mem_map] at hmap
  obtain ⟨e, _, rfl⟩ := hmap
  exact ⟨hdist, rfl⟩

/-- C10: the filtered list is sorted by non-increasing event timestamp, and
each returned record is an input event carried unchanged in its `event`
fields, with the added `distance` and `direction` fields computed from it. -/
theorem C10_filter_radius_sorted_fields (eqs : List Earthquake) (lat lon r : ℚ) :
    List.Pairwise (fun a b : LocatedEq => b.event.time ≤ a.event.time)
      (filterEarthquakesByRadius eqs lat lon r) ∧
    (filterEarthquakesByRadius eqs lat lon r).Forall fun x =>
      x.event ∈ eqs ∧
      x.distance = calculateDistance lat lon x.event.latitude x.event.longitude ∧
      x.direction = getDirection lat lon x.event.latitude x.event.longitude := by
  constructor
  · unfold filterEarthquakesByRadius
    exact mergeSort_sorted_desc (fun x : LocatedEq => x.event.time) _
  · rw [List.forall_iff_forall_mem]
    intro x hx
    unfold filterEarthquakesByRadius at hx
    rw [List.mem_mergeSort, List.mem_filter] at hx
    obtain ⟨hmap, _⟩ := hx
    rw [List.mem_map] at hmap
    obtain ⟨e, he, rfl⟩ := hmap
    exact ⟨he, rfl, rfl⟩

/-- Auxiliary: `Math.atan2` stays above `-2 * pi` (its true range is
`(-pi, pi]`; this cruder bound is all the direction index needs). -/
theorem atan2_lower_bound (y x : ℝ) : -(2 * Real.pi) < atan2 y x := by
  have hpi := Real.pi_pos
  unfold atan2
  split_ifs
  · have := Real.neg_pi_div_two_lt_arctan (y / x)
    linarith
  · have := Real.neg_pi_div_two_lt_arctan (y / x)
    linarith
  · have := Real.neg_pi_div_two_lt_arctan (y / x)
    linarith
  · linarith
  · linarith
  · linarith

/-- Auxiliary: the JS remainder of a nonnegative number by 360 lies in
`[0, 360)`. -/
theorem jsMod_360_bounds (a : ℝ) (ha : 0 ≤ a) :
    0 ≤ jsMod a 360 ∧ jsMod a 360 < 360 := by
  unfold jsMod jsTrunc
  have hdiv : (0 : ℝ) ≤ a / 360 := by positivity
  rw [if_pos hdiv]
  have hm : a / 360 * 360 = a := div_mul_cancel₀ a (by norm_num)
  have h1 : (⌊a / 360⌋ : ℝ) ≤ a / 360 := Int.floor_le _
  have h2 : a / 360 < (⌊a / 360⌋ : ℝ) + 1 := Int.lt_floor_add_one _
  have h1m : (⌊a / 360⌋ : ℝ) * 360 ≤ a / 360 * 360 :=
    mul_le_mul_of_nonneg_right h1 (by norm_num)
  have h2m : a / 360 * 360 < ((⌊a / 360⌋ : ℝ) + 1) * 360 :=
    mul_lt_mul_of_pos_right h2 (by norm_num)
  constructor
  · nlinarith
  · nlinarith

/-- Auxiliary: rounding a nonnegative value and taking the JS `% 8` (which
on nonnegative operands agrees with the Euclidean remainder) lands in
`[0, 8)`. -/
theorem round_tmod_eight_bounds (v : ℝ) (h0 : 0 ≤ v) :
    0 ≤ (jsRound v).tmod 8 ∧ (jsRound v).tmod 8 < 8 := by
  have hk0 : 0 ≤ jsRound v := by
    unfold jsRound
    exact Int.floor_nonneg.mpr (by linarith)
  rw [Int.tmod_eq_emod hk0 (by norm_num)]
  exact ⟨Int.emod_nonneg _ (by norm_num), Int.emod_lt_of_pos _ (by norm_num)⟩

/-- C8: `getDirection` always lands its index in bounds and returns one of
the eight compass strings; the array access never yields `undefined`. -/
theorem C8_direction_in_range (lat1 lon1 lat2 lon2 : ℚ) :
    getDirection lat1 lon1 lat2 lon2 ∈ directions ∧
    getDirection lat1 lon1 lat2 lon2 ≠ ("undefined") := by
  have hmem : getDirection lat1 lon1 lat2 lon2 ∈ directions := by
    simp only [getDirection]
    set y : ℝ := Real.sin ((lon2 : ℝ) - (lon1 : ℝ)) * Real.cos (lat2 : ℝ) with hy
    set x : ℝ := Real.cos (lat1 : ℝ) * Real.sin (lat2 : ℝ) -
      Real.sin (lat1 : ℝ) * Real.cos (lat2 : ℝ) * Real.cos ((lon2 : ℝ) - (lon1 : ℝ)) with hx
    have hpi := Real.pi_pos
    have hb : (0 : ℝ) ≤ atan2 y x * 180 / Real.pi + 360 := by
      have h1 := atan2_lower_bound y x
      have hkey : atan2 y x * 180 / Real.pi + 360 =
          (atan2 y x + 2 * Real.pi) * (180 / Real.pi) := by
        field_simp
        ring
      rw [hkey]
      have hsum : (0 : ℝ) < atan2 y x + 2 * Real.pi := by linarith
      exact le_of_lt (mul_pos hsum (div_pos (by norm_num) hpi))
    have hmod := jsMod_360_bounds _ hb
    have hv0 : (0 : ℝ) ≤ jsMod (atan2 y x * 180 / Real.pi + 360) 360 / 45 :=
      div_nonneg hmod.1 (by norm_num)
    have hidx := round_tmod_eight_bounds _ hv0
    have hlt : ((jsRound (jsMod (atan2 y x * 180 / Real.pi + 360) 360 / 45)).tmod 8).toNat <
        directions.length := by
      have h8 : directions.length = 8 := by rfl
      rw [h8]
      omega
    rw [List.getD_eq_getElem _ _ hlt]
    exact List.getElem_mem hlt
  refine ⟨hmem, ?_⟩
  intro hcontra
  rw [hcontra] at hmem
  simp [directions] at hmem

/-- Auxiliary: unfolding of the debounce machine on an empty edit list. -/
theorem debounceRun_nil (pending : Option (ℤ × String)) :
    debounceRun pending [] =
      match pending with
      | some fq => [fq]
      | none => [] := by
  cases pending <;> rfl

/-- Auxiliary: unfolding of the debounce machine on one more edit. -/
theorem debounceRun_cons (pending : Option (ℤ × String)) (e : Edit) (rest : List Edit) :
    debounceRun pending (e :: rest) =
      (match pending with
        | some fq => if fq.1 < e.time then [fq] else []
        | none => []) ++
      debounceRun (if 3 ≤ (jsTrim e.query).length then some (e.time + 300, e.query) else none)
        rest := by
  cases pending <;> rfl

/-- Auxiliary: any fetch emitted by the debounce machine either is the
initially pending timer firing before every edit, or stems from an edit
300 ms earlier with no later edit inside that window. -/
theorem debounceRun_spec :
    ∀ (edits : List Edit) (pending : Option (ℤ × String)),
      edits.Pairwise (fun a b => a.time < b.time) →
      ∀ fq ∈ debounceRun pending edits,
        (pending = some fq ∧ ∀ e2 ∈ edits, fq.1 < e2.time) ∨
        (∃ e ∈ edits, fq.1 = e.time + 300 ∧ fq.2 = e.query ∧
          3 ≤ (jsTrim e.query).length ∧
          ∀ e2 ∈ edits, e2.time ≤ e.time ∨ fq.1 < e2.time)
  | [], pending, _, fq, hfq => by
    rw [debounceRun_nil] at hfq
    cases pending with
    | some p =>
      rw [List.mem_singleton] at hfq
      subst hfq
      exact Or.inl ⟨rfl, by simp⟩
    | none => simp at hfq
  | e :: rest, pending, hch, fq, hfq => by
    have hhead : ∀ e2 ∈ rest, e.time < e2.time := (List.pairwise_cons.mp hch).1
    have htail : rest.Pairwise (fun a b => a.time < b.time) := (List.pairwise_cons.mp hch).2
    rw [debounceRun_cons] at hfq
    rw [List.mem_append] at hfq
    rcases hfq with hfired | hrec
    · cases pending with
      | none => simp at hfired
      | some p =>
        by_cases hc : p.1 < e.time
        · simp only [if_pos hc, List.mem_singleton] at hfired
          subst hfired
          refine Or.inl ⟨rfl, ?_⟩
          intro e2 he2
          rcases List.mem_cons.mp he2 with rfl | he2r
          · exact hc
          · exact lt_trans hc (hhead e2 he2r)
        · simp only [if_neg hc] at hfired
          simp at hfired
    · have ih := debounceRun_spec rest
        (if 3 ≤ (jsTrim e.query).length then some (e.time + 300, e.query) else none)
        htail fq hrec
      rcases ih with ⟨hnext, hall⟩ | ⟨e', he', h1, h2, h3, h4⟩
      · by_cases hq : 3 ≤ (jsTrim e.query).length
        · rw [if_pos hq] at hnext
          have hfq' : fq = (e.time + 300, e.query) := (Option.some_inj.mp hnext).symm
          subst hfq'
          refine Or.inr ⟨e, List.mem_cons_self e rest, rfl, rfl, hq, ?_⟩
          intro e2 he2
          rcases List.mem_cons.mp he2 with rfl | he2r
          · exact Or.inl le_rfl
          · exact Or.inr (hall e2 he2r)
        · rw [if_neg hq] at hnext
          exact absurd hnext (by simp)
      · refine Or.inr ⟨e', List.mem_cons_of_mem _ he', h1, h2, h3, ?_⟩
        intro e2 he2
        rcases List.mem_cons.mp he2 with rfl | he2r
        · exact Or.inl (le_of_lt (hhead e' he'))
        · exact h4 e2 he2r

/-- C7: over any strictly time-ordered edit sequence, every geocoding
fetch the debounced search bar issues fires exactly 300 ms after some edit
of a query of trimmed length at least 3, and no other edit falls strictly
between that edit and the fire instant — a keystroke inside the window
cancels the pending request. -/
theorem C7_debounce_no_fetch_within_window (edits : List Edit)
    (hinc : edits.Pairwise (fun a b => a.time < b.time)) :
    ∀ fq ∈ issuedFetches edits,
      ∃ e ∈ edits, fq.1 = e.time + 300 ∧ fq.2 = e.query ∧
        3 ≤ (jsTrim e.query).length ∧
        ∀ e2 ∈ edits, e2.time ≤ e.time ∨ fq.1 < e2.time := by
  intro fq hfq
  rcases debounceRun_spec edits none hinc fq hfq with ⟨hnone, _⟩ | h
  · exact absurd hnone (by simp)
  · exact h

/-- C7 witness: a single edit of query tokyo at time 0 issues exactly one
fetch, at instant 300, and the theorem's conclusion holds for it. -/
theorem C7_witness :
    (([⟨0, "tokyo"⟩] : List Edit).Pairwise (fun a b => a.time < b.time)) ∧
    (((300 : ℤ), ("tokyo" : String)) ∈ issuedFetches [⟨0, "tokyo"⟩]) ∧
    (∃ e ∈ ([⟨0, "tokyo"⟩] : List Edit),
      ((300 : ℤ), ("tokyo" : String)).1 = e.time + 300 ∧
      ((300 : ℤ), ("tokyo" : String)).2 = e.query ∧
      3 ≤ (jsTrim e.query).length ∧
      ∀ e2 ∈ ([⟨0, "tokyo"⟩] : List Edit),
        e2.time ≤ e.time ∨ ((300 : ℤ), ("tokyo" : String)).1 < e2.time) := by
  have hp : ([⟨0, "tokyo"⟩] : List Edit).Pairwise (fun a b => a.time < b.time) :=
    List.pairwise_singleton _ _
  have hm : ((300 : ℤ), ("tokyo" : String)) ∈ issuedFetches [⟨0, "tokyo"⟩] := by
    have he : issuedFetches [⟨0, "tokyo"⟩] = [((300 : ℤ), ("tokyo" : String))] := by
      decide
    rw [he]
    exact List.mem_singleton.mpr rfl
  exact ⟨hp, hm, C7_debounce_no_fetch_within_window [⟨0, "tokyo"⟩] hp _ hm⟩

end Aftershock
